import Mathlib

set_option autoImplicit false

/-!
# FAX-BANK ledger engine — shallow embedding

This file embeds the ledger/economy engine of the FAX-BANK repository
(`src/data/DataStore.ts`, `src/data/EconomyManager.ts` DataStore variant,
`src/data/BankManager.ts`, `src/systems/SystemCurrency.ts`, and the array
variant of `EconomyManager.ts`) and proves properties of its operations.

Modelling conventions:
* JS numbers are modelled as `ℚ` (exact rationals).
* A JS `Record<ID, T>` is modelled as an association list `List (ID × T)`;
  `rget`/`rset`/`rdel` model key lookup, `{...m, [k]: v}` spread update and
  `const { [k]: _, ...rest }` key removal.
* `Date.now()` timestamps are opaque to every property proved here and are
  modelled by the constant `now`.
* `foundry.utils.randomID()` outputs are threaded in as explicit `id`
  parameters of each creating operation.
* Each `async` engine operation is a pure function from the loaded store to
  a result together with the store it saves (`updateDataStore` is
  load–modify–save); `transferCore` additionally exposes every intermediate
  store persisted by `transfer`'s successive `updateDataStore` calls.
-/

namespace FaxBank

/-- Entity identifier (`type ID = string`). -/
abbrev ID := String

/-- Timestamps are opaque to all properties below; `Date.now()` is modelled
by this constant. -/
def now : Nat := 0

/-- Key lookup in a JS `Record<ID, T>` (`store.xs[id]`). -/
def rget {α : Type} : List (ID × α) → ID → Option α
  | [], _ => none
  | p :: rest, k => if p.1 = k then some p.2 else rget rest k

/-- Key removal from a JS `Record<ID, T>` (`const { [id]: _, ...rest }`). -/
def rdel {α : Type} : List (ID × α) → ID → List (ID × α)
  | [], _ => []
  | p :: rest, k => if p.1 = k then rdel rest k else p :: rdel rest k

/-- Key update of a JS `Record<ID, T>` (`{ ...m, [k]: v }`). -/
def rset {α : Type} (m : List (ID × α)) (k : ID) (v : α) : List (ID × α) :=
  rdel m k ++ [(k, v)]

/-- `Object.values(m)`. -/
def rvals {α : Type} (m : List (ID × α)) : List α :=
  m.map Prod.snd

/-- `Economy` of `src/types.ts`. -/
structure Economy where
  id : ID
  name : String
  description : String
  baseCurrencyId : Option ID
  interestRate : ℚ
  growthRate : ℚ
  createdAt : Nat
  updatedAt : Nat
deriving DecidableEq

/-- `Currency` of `src/types.ts`. -/
structure Currency where
  id : ID
  economyId : ID
  name : String
  abbreviation : String
  symbol : String
  baseValue : ℚ
  color : String
  createdAt : Nat
deriving DecidableEq

/-- `ExchangeRate` of `src/types.ts`. -/
structure ExchangeRate where
  fromCurrencyId : ID
  toCurrencyId : ID
  rate : ℚ
  updatedAt : Nat
deriving DecidableEq

/-- Fee schedule of a `Bank` (`fees` field of `src/types.ts`). -/
structure Fees where
  withdrawal : ℚ
  transfer : ℚ
  exchange : ℚ
deriving DecidableEq

/-- `Bank` of `src/types.ts`. -/
structure Bank where
  id : ID
  economyId : ID
  name : String
  description : String
  interestRate : ℚ
  fees : Fees
  createdAt : Nat
  updatedAt : Nat
deriving DecidableEq

/-- `Account` of `src/types.ts`. -/
structure Account where
  id : ID
  bankId : ID
  currencyId : ID
  ownerId : String
  ownerName : String
  name : String
  balance : ℚ
  isActive : Bool
  createdAt : Nat
  updatedAt : Nat
deriving DecidableEq

/-- `TransactionType` of `src/types.ts`. -/
inductive TransactionType where
  | deposit
  | withdrawal
  | transfer
  | exchange
  | interest
  | fee
deriving DecidableEq

/-- `Transaction` of `src/types.ts`. -/
structure Transaction where
  id : ID
  accountId : ID
  type : TransactionType
  amount : ℚ
  currencyId : ID
  balanceAfter : ℚ
  description : String
  relatedAccountId : Option ID
  relatedTransactionId : Option ID
  createdBy : String
  createdAt : Nat
deriving DecidableEq

/-- `BankDataStore` of `src/types.ts`. -/
structure BankDataStore where
  version : String
  economies : List (ID × Economy)
  currencies : List (ID × Currency)
  exchangeRates : List ExchangeRate
  banks : List (ID × Bank)
  accounts : List (ID × Account)
  transactions : List Transaction
deriving DecidableEq

/-- `getDefaultStore` of `src/data/DataStore.ts`. -/
def getDefaultStore : BankDataStore :=
  { version := "1.0.0"
    economies := []
    currencies := []
    exchangeRates := []
    banks := []
    accounts := []
    transactions := [] }

/-! ## EconomyManager (DataStore variant of `src/data/EconomyManager.ts`) -/

/-- `createEconomy` (DataStore variant).  `id` stands for the `generateId()`
output.  The source never fails and stores the economy with
`baseCurrencyId: null`. -/
def createEconomy (s : BankDataStore) (id : ID) (name : String)
    (description : String) (interestRate growthRate : ℚ) :
    Except String Economy × BankDataStore :=
  let economy : Economy :=
    { id, name, description, baseCurrencyId := none, interestRate, growthRate
      createdAt := now, updatedAt := now }
  (.ok economy, { s with economies := rset s.economies id economy })

/-- `updateEconomy`.  The source merges a `Partial` record; the merge is
modelled by the field-update function `upd` (which leaves `id` and
`createdAt` untouched at every call site below). -/
def updateEconomy (s : BankDataStore) (id : ID) (upd : Economy → Economy) :
    Except String Economy × BankDataStore :=
  match rget s.economies id with
  | none => (.error "Economy not found", s)
  | some economy =>
    let updated : Economy := { upd economy with updatedAt := now }
    (.ok updated, { s with economies := rset s.economies id updated })

/-- `deleteEconomy` (DataStore variant): cascades to currencies, banks,
accounts of deleted banks, and transactions of deleted accounts. -/
def deleteEconomy (s : BankDataStore) (id : ID) :
    Except String Unit × BankDataStore :=
  if (rget s.economies id).isNone then (.error "Economy not found", s)
  else
    let economies := rdel s.economies id
    let currencies := s.currencies.filter fun p => !(p.2.economyId == id)
    let bankIds := ((rvals s.banks).filter fun b => b.economyId == id).map Bank.id
    let banks := s.banks.filter fun p => !(p.2.economyId == id)
    let accounts := s.accounts.filter fun p => !(bankIds.contains p.2.bankId)
    let accountIds := accounts.map Prod.fst
    let transactions := s.transactions.filter fun t => accountIds.contains t.accountId
    (.ok (), { s with economies, currencies, banks, accounts, transactions })

/-- `createCurrency` (DataStore variant): only checks that the economy
exists; when `baseValue == 1` it additionally promotes the new currency to
the economy's base currency via `updateEconomy`. -/
def createCurrency (s : BankDataStore) (id : ID) (economyId : ID)
    (name abbreviation symbol : String) (baseValue : ℚ) (color : String) :
    Except String Currency × BankDataStore :=
  if (rget s.economies economyId).isNone then (.error "Economy not found", s)
  else
    let currency : Currency :=
      { id, economyId, name, abbreviation, symbol, baseValue, color
        createdAt := now }
    let s1 : BankDataStore := { s with currencies := rset s.currencies id currency }
    let s2 : BankDataStore :=
      if baseValue = 1 then
        (updateEconomy s1 economyId fun e => { e with baseCurrencyId := some id }).2
      else s1
    (.ok currency, s2)

/-- `getCurrency`. -/
def getCurrency (s : BankDataStore) (id : ID) : Option Currency :=
  rget s.currencies id

/-- `deleteCurrency` (DataStore variant): fails when the currency is missing
or when any account uses it; there is no base-currency guard. -/
def deleteCurrency (s : BankDataStore) (id : ID) :
    Except String Unit × BankDataStore :=
  if (rget s.currencies id).isNone then (.error "Currency not found", s)
  else
    let accountsUsing := (rvals s.accounts).filter fun a => a.currencyId == id
    if accountsUsing.length > 0 then
      (.error "Cannot delete currency: accounts exist using this currency", s)
    else
      (.ok (), { s with currencies := rdel s.currencies id })

/-- `getExchangeRate`: identity 1 for equal ids, explicit override when one
is stored for the ordered pair, else the ratio of `baseValue`s within one
economy, else `null`. -/
def getExchangeRate (s : BankDataStore) (fromCurrencyId toCurrencyId : ID) :
    Option ℚ :=
  match rget s.currencies fromCurrencyId, rget s.currencies toCurrencyId with
  | some fromCur, some toCur =>
    if fromCurrencyId = toCurrencyId then some 1
    else
      match s.exchangeRates.find? fun r =>
          r.fromCurrencyId == fromCurrencyId && r.toCurrencyId == toCurrencyId with
      | some customRate => some customRate.rate
      | none =>
        if fromCur.economyId = toCur.economyId then
          some (fromCur.baseValue / toCur.baseValue)
        else none
  | _, _ => none

/-- `setExchangeRate`: removes any stored rate for the ordered pair, then
appends the new one. -/
def setExchangeRate (s : BankDataStore) (fromCurrencyId toCurrencyId : ID)
    (rate : ℚ) : Except String ExchangeRate × BankDataStore :=
  if (rget s.currencies fromCurrencyId).isNone ∨
      (rget s.currencies toCurrencyId).isNone then
    (.error "Currency not found", s)
  else
    let exchangeRate : ExchangeRate :=
      { fromCurrencyId, toCurrencyId, rate, updatedAt := now }
    let rates := s.exchangeRates.filter fun r =>
      !(r.fromCurrencyId == fromCurrencyId && r.toCurrencyId == toCurrencyId)
    (.ok exchangeRate, { s with exchangeRates := rates ++ [exchangeRate] })

/-! ## BankManager (`src/data/BankManager.ts`) -/

/-- `createBank` of `src/data/BankManager.ts`. -/
def createBank (s : BankDataStore) (id : ID) (economyId : ID)
    (name description : String) (interestRate : ℚ) (fees : Fees) :
    Except String Bank × BankDataStore :=
  if (rget s.economies economyId).isNone then (.error "Economy not found", s)
  else
    let bank : Bank :=
      { id, economyId, name, description, interestRate, fees
        createdAt := now, updatedAt := now }
    (.ok bank, { s with banks := rset s.banks id bank })

/-- `deleteBank` of `src/data/BankManager.ts`: refuses while accounts exist
at the bank. -/
def deleteBank (s : BankDataStore) (id : ID) :
    Except String Unit × BankDataStore :=
  if (rget s.banks id).isNone then (.error "Bank not found", s)
  else if (rvals s.accounts).any fun a => a.bankId == id then
    (.error "Cannot delete bank: accounts exist", s)
  else
    (.ok (), { s with banks := rdel s.banks id })

/-- `createAccount`: requires the bank, the currency, and that the currency
belongs to the bank's economy; the account starts active with balance 0. -/
def createAccount (s : BankDataStore) (id : ID) (bankId currencyId : ID)
    (ownerId ownerName name : String) :
    Except String Account × BankDataStore :=
  match rget s.banks bankId with
  | none => (.error "Bank not found", s)
  | some bank =>
    match getCurrency s currencyId with
    | none => (.error "Currency not found", s)
    | some currency =>
      if currency.economyId ≠ bank.economyId then
        (.error "Currency does not belong to bank's economy", s)
      else
        let account : Account :=
          { id, bankId, currencyId, ownerId, ownerName, name
            balance := 0, isActive := true, createdAt := now, updatedAt := now }
        (.ok account, { s with accounts := rset s.accounts id account })

/-- `updateAccount`.  As with `updateEconomy`, the `Partial` merge is
modelled by a field-update function (restricted by the source to the `name`
and `isActive` fields at its call sites). -/
def updateAccount (s : BankDataStore) (id : ID) (upd : Account → Account) :
    Except String Account × BankDataStore :=
  match rget s.accounts id with
  | none => (.error "Account not found", s)
  | some account =>
    let updated : Account := { upd account with updatedAt := now }
    (.ok updated, { s with accounts := rset s.accounts id updated })

/-- `closeAccount`: fails unless the balance is exactly zero, then flips
`isActive` off (soft delete). -/
def closeAccount (s : BankDataStore) (id : ID) :
    Except String Unit × BankDataStore :=
  match rget s.accounts id with
  | none => (.error "Account not found", s)
  | some account =>
    if account.balance ≠ 0 then
      (.error "Cannot close account with non-zero balance", s)
    else
      (.ok (), (updateAccount s id fun a => { a with isActive := false }).2)

/-- `recordTransaction`: appends one transaction record and saves.  `txnId`
stands for the `generateId()` output. -/
def recordTransaction (s : BankDataStore) (txnId : ID) (accountId : ID)
    (type : TransactionType) (amount : ℚ) (currencyId : ID)
    (balanceAfter : ℚ) (description createdBy : String)
    (relatedAccountId relatedTransactionId : Option ID) :
    Transaction × BankDataStore :=
  let transaction : Transaction :=
    { id := txnId, accountId, type, amount, currencyId, balanceAfter
      description, relatedAccountId, relatedTransactionId, createdBy
      createdAt := now }
  (transaction, { s with transactions := s.transactions ++ [transaction] })

/-- `deposit`: validates, saves the new balance, then records one
transaction. -/
def deposit (s : BankDataStore) (txnId : ID) (accountId : ID) (amount : ℚ)
    (description createdBy : String) :
    Except String Transaction × BankDataStore :=
  if amount ≤ 0 then (.error "Amount must be positive", s)
  else
    match rget s.accounts accountId with
    | none => (.error "Account not found", s)
    | some account =>
      if !account.isActive then (.error "Account is inactive", s)
      else
        let newBalance := account.balance + amount
        let updatedAccount : Account :=
          { account with balance := newBalance, updatedAt := now }
        let s1 : BankDataStore :=
          { s with accounts := rset s.accounts accountId updatedAccount }
        let (transaction, s2) :=
          recordTransaction s1 txnId accountId .deposit amount
            account.currencyId newBalance description createdBy none none
        (.ok transaction, s2)

/-- `withdraw`: additionally checks the balance; the recorded amount is
negative. -/
def withdraw (s : BankDataStore) (txnId : ID) (accountId : ID) (amount : ℚ)
    (description createdBy : String) :
    Except String Transaction × BankDataStore :=
  if amount ≤ 0 then (.error "Amount must be positive", s)
  else
    match rget s.accounts accountId with
    | none => (.error "Account not found", s)
    | some account =>
      if !account.isActive then (.error "Account is inactive", s)
      else if account.balance < amount then (.error "Insufficient funds", s)
      else
        let newBalance := account.balance - amount
        let updatedAccount : Account :=
          { account with balance := newBalance, updatedAt := now }
        let s1 : BankDataStore :=
          { s with accounts := rset s.accounts accountId updatedAccount }
        let (transaction, s2) :=
          recordTransaction s1 txnId accountId .withdrawal (-amount)
            account.currencyId newBalance description createdBy none none
        (.ok transaction, s2)

/-- Core of `transfer`, exposing the three stores persisted by its three
successive `updateDataStore` calls: `s1` saves both new balances, `s2`
additionally holds the source-leg record, `s3` additionally holds the
destination-leg record.  `fromTxnId`/`toTxnId` stand for the `generateId()`
outputs of the two `recordTransaction` calls. -/
def transferCore (s : BankDataStore) (fromTxnId toTxnId : ID)
    (fromAccountId toAccountId : ID) (amount : ℚ)
    (description createdBy : String) :
    Except String
      (Transaction × Transaction × BankDataStore × BankDataStore × BankDataStore) :=
  if amount ≤ 0 then .error "Amount must be positive"
  else
    match rget s.accounts fromAccountId, rget s.accounts toAccountId with
    | none, _ => .error "Source account not found"
    | some _, none => .error "Destination account not found"
    | some fromAccount, some toAccount =>
      if !fromAccount.isActive || !toAccount.isActive then
        .error "One or both accounts are inactive"
      else if fromAccount.balance < amount then .error "Insufficient funds"
      else
        let transferAmountResult : Option ℚ :=
          if fromAccount.currencyId ≠ toAccount.currencyId then
            (getExchangeRate s fromAccount.currencyId toAccount.currencyId).map
              fun rate => amount * rate
          else some amount
        match transferAmountResult with
        | none => .error "Cannot convert between these currencies"
        | some transferAmount =>
          let newFromBalance := fromAccount.balance - amount
          let newToBalance := toAccount.balance + transferAmount
          let updatedFrom : Account :=
            { fromAccount with balance := newFromBalance, updatedAt := now }
          let updatedTo : Account :=
            { toAccount with balance := newToBalance, updatedAt := now }
          let newAccounts :=
            rset (rset s.accounts fromAccountId updatedFrom) toAccountId updatedTo
          let s1 : BankDataStore := { s with accounts := newAccounts }
          let (fromTransaction, s2) :=
            recordTransaction s1 fromTxnId fromAccountId .transfer (-amount)
              fromAccount.currencyId newFromBalance
              (description ++ " to " ++ toAccount.ownerName) createdBy
              (some toAccountId) none
          let (toTransaction, s3) :=
            recordTransaction s2 toTxnId toAccountId .transfer transferAmount
              toAccount.currencyId newToBalance
              (description ++ " from " ++ fromAccount.ownerName) createdBy
              (some fromAccountId) (some fromTransaction.id)
          .ok (fromTransaction, toTransaction, s1, s2, s3)

/-- `transfer`: result and final store. -/
def transfer (s : BankDataStore) (fromTxnId toTxnId : ID)
    (fromAccountId toAccountId : ID) (amount : ℚ)
    (description createdBy : String) :
    Except String (Transaction × Transaction) × BankDataStore :=
  match transferCore s fromTxnId toTxnId fromAccountId toAccountId amount
      description createdBy with
  | .error e => (.error e, s)
  | .ok (t1, t2, _, _, s3) => (.ok (t1, t2), s3)

/-- The sequence of stores persisted by one `transfer` call, in the order of
its `updateDataStore` calls (a failed call persists nothing). -/
def transferPersists (s : BankDataStore) (fromTxnId toTxnId : ID)
    (fromAccountId toAccountId : ID) (amount : ℚ)
    (description createdBy : String) : List BankDataStore :=
  match transferCore s fromTxnId toTxnId fromAccountId toAccountId amount
      description createdBy with
  | .error _ => []
  | .ok (_, _, s1, s2, s3) => [s1, s2, s3]

/-! ## The engine as a state machine

One `Op` per mutating engine operation; its `ID` arguments include the
`generateId()` outputs of the underlying call. -/

/-- A mutating engine operation together with its arguments. -/
inductive Op where
  | createEconomy (id : ID) (name description : String)
      (interestRate growthRate : ℚ)
  | deleteEconomy (id : ID)
  | createCurrency (id economyId : ID) (name abbreviation symbol : String)
      (baseValue : ℚ) (color : String)
  | deleteCurrency (id : ID)
  | setExchangeRate (fromCurrencyId toCurrencyId : ID) (rate : ℚ)
  | createBank (id economyId : ID) (name description : String)
      (interestRate : ℚ) (fees : Fees)
  | deleteBank (id : ID)
  | createAccount (id bankId currencyId : ID) (ownerId ownerName name : String)
  | closeAccount (id : ID)
  | deposit (txnId accountId : ID) (amount : ℚ) (description createdBy : String)
  | withdraw (txnId accountId : ID) (amount : ℚ) (description createdBy : String)
  | transfer (fromTxnId toTxnId fromAccountId toAccountId : ID) (amount : ℚ)
      (description createdBy : String)

/-- The store after running one operation (a rejected operation leaves the
store unchanged). -/
def applyOp (s : BankDataStore) : Op → BankDataStore
  | .createEconomy id name description ir gr =>
    (createEconomy s id name description ir gr).2
  | .deleteEconomy id => (deleteEconomy s id).2
  | .createCurrency id economyId name abbreviation symbol baseValue color =>
    (createCurrency s id economyId name abbreviation symbol baseValue color).2
  | .deleteCurrency id => (deleteCurrency s id).2
  | .setExchangeRate fromId toId rate => (setExchangeRate s fromId toId rate).2
  | .createBank id economyId name description ir fees =>
    (createBank s id economyId name description ir fees).2
  | .deleteBank id => (deleteBank s id).2
  | .createAccount id bankId currencyId ownerId ownerName name =>
    (createAccount s id bankId currencyId ownerId ownerName name).2
  | .closeAccount id => (closeAccount s id).2
  | .deposit txnId accountId amount description createdBy =>
    (deposit s txnId accountId amount description createdBy).2
  | .withdraw txnId accountId amount description createdBy =>
    (withdraw s txnId accountId amount description createdBy).2
  | .transfer fromTxnId toTxnId fromAccountId toAccountId amount description createdBy =>
    (transfer s fromTxnId toTxnId fromAccountId toAccountId amount
      description createdBy).2

/-- The store reached by a sequence of operations from the default empty
store. -/
def runOps (ops : List Op) : BankDataStore :=
  ops.foldl applyOp getDefaultStore

/-- Every stored account has a nonnegative balance. -/
def BalancesNonneg (s : BankDataStore) : Prop :=
  ∀ p ∈ s.accounts, 0 ≤ p.2.balance

/-- Every stored currency has a positive `baseValue`. -/
def CurrenciesPositive (s : BankDataStore) : Prop :=
  ∀ p ∈ s.currencies, 0 < p.2.baseValue

/-- Every stored exchange-rate override is nonnegative. -/
def RatesNonneg (s : BankDataStore) : Prop :=
  ∀ r ∈ s.exchangeRates, 0 ≤ r.rate

/-- Combined store invariant used for the balance-nonnegativity proof. -/
def StoreInv (s : BankDataStore) : Prop :=
  CurrenciesPositive s ∧ RatesNonneg s ∧ BalancesNonneg s

/-- Validated operation arguments: currencies are created with positive
`baseValue` and overrides are set with nonnegative rates (the source
performs neither check in the engine itself). -/
def GoodOp : Op → Prop
  | .createCurrency _ _ _ _ _ baseValue _ => 0 < baseValue
  | .setExchangeRate _ _ rate => 0 ≤ rate
  | _ => True

/-- The override list holds at most one entry per ordered currency pair. -/
def RatesKeyUnique (s : BankDataStore) : Prop :=
  s.exchangeRates.Pairwise fun r1 r2 =>
    ¬(r1.fromCurrencyId = r2.fromCurrencyId ∧ r1.toCurrencyId = r2.toCurrencyId)

/-- Whether an operation is a `setExchangeRate` call. -/
def Op.isSetExchangeRate : Op → Bool
  | .setExchangeRate _ _ _ => true
  | _ => false

/-! ## Array variant of `src/data/EconomyManager.ts` (first file half)

Only `createEconomy` of this independently evolved variant is needed: it is
the variant that creates an economy together with its base currency. -/

namespace ArrayEM

/-- `Currency` of the array variant.  The source field `abbrev` is spelled
`abbrev'` because `abbrev` is a Lean keyword. -/
structure Currency where
  id : String
  name : String
  abbrev' : String
  symbol : String
  baseValue : ℚ
  isBase : Bool
deriving DecidableEq

/-- `Economy` of the array variant. -/
structure Economy where
  id : String
  name : String
  description : String
  currencies : List Currency
  baseCurrencyId : String
  interestRate : ℚ
  createdAt : Nat
deriving DecidableEq

/-- `createEconomy` of the array variant: builds the base currency
(`baseValue` 1, `isBase` true), embeds it in the new economy, sets
`baseCurrencyId` to its id and appends the economy to the stored list.
`economyId`/`currencyId` stand for the source's `Date.now()`-derived ids. -/
def createEconomy (economies : List Economy) (economyId currencyId : String)
    (name description : String) (baseCurrency : String × String × String) :
    Economy × List Economy :=
  let currency : Currency :=
    { id := currencyId
      name := baseCurrency.1
      abbrev' := baseCurrency.2.1
      symbol := baseCurrency.2.2
      baseValue := 1
      isBase := true }
  let economy : Economy :=
    { id := economyId, name, description
      currencies := [currency]
      baseCurrencyId := currencyId
      interestRate := 0
      createdAt := now }
  (economy, economies ++ [economy])

end ArrayEM

/-! ## Character-wallet bridge (`src/systems/SystemCurrency.ts`)

The wallet lives on the host's actor objects.  An actor is modelled by its
`system.currency` record (absent when the sheet has no currency block) and
by whether its `update` method is present and functional — the source's
only failure modes for a wallet write. -/

namespace SystemCurrency

/-- `CurrencyData`: the five optional denomination fields. -/
structure CurrencyData where
  pp : Option ℚ
  gp : Option ℚ
  ep : Option ℚ
  sp : Option ℚ
  cp : Option ℚ
deriving DecidableEq

/-- The all-zero record returned for sheets without a currency block. -/
def CurrencyData.zero : CurrencyData :=
  { pp := some 0, gp := some 0, ep := some 0, sp := some 0, cp := some 0 }

/-- The empty record (all fields absent). -/
def CurrencyData.empty : CurrencyData :=
  { pp := none, gp := none, ep := none, sp := none, cp := none }

/-- `currencyData[currency]` field indexing. -/
def CurrencyData.get (c : CurrencyData) (currency : String) : Option ℚ :=
  if currency = "pp" then c.pp
  else if currency = "gp" then c.gp
  else if currency = "ep" then c.ep
  else if currency = "sp" then c.sp
  else if currency = "cp" then c.cp
  else none

/-- `actor.update({ [`system.currency.${currency}`]: v })` field write. -/
def CurrencyData.set (c : CurrencyData) (currency : String) (v : ℚ) :
    CurrencyData :=
  if currency = "pp" then { c with pp := some v }
  else if currency = "gp" then { c with gp := some v }
  else if currency = "ep" then { c with ep := some v }
  else if currency = "sp" then { c with sp := some v }
  else if currency = "cp" then { c with cp := some v }
  else c

/-- `ActorWithCurrency`: the parts of a host actor the bridge touches.
`hasUpdate` models whether `actor.update` exists and succeeds. -/
structure ActorWithCurrency where
  name : Option String
  currency : Option CurrencyData
  hasUpdate : Bool
deriving DecidableEq

/-- `getActorCurrency`. -/
def getActorCurrency (actor : ActorWithCurrency) : CurrencyData :=
  match actor.currency with
  | none => CurrencyData.zero
  | some c => c

/-- `getActorCurrencyAmount`. -/
def getActorCurrencyAmount (actor : ActorWithCurrency) (currency : String) : ℚ :=
  ((getActorCurrency actor).get currency).getD 0

/-- `actorHasCurrency`. -/
def actorHasCurrency (actor : ActorWithCurrency) (currency : String)
    (amount : ℚ) : Prop :=
  amount ≤ getActorCurrencyAmount actor currency

instance (actor : ActorWithCurrency) (currency : String) (amount : ℚ) :
    Decidable (actorHasCurrency actor currency amount) := by
  unfold actorHasCurrency; infer_instance

/-- Write `v` to the actor's `system.currency.<currency>` path (Foundry
creates the nested record when absent). -/
def writeCurrency (actor : ActorWithCurrency) (currency : String) (v : ℚ) :
    ActorWithCurrency :=
  let newCurrency := ((actor.currency).getD CurrencyData.empty).set currency v
  { actor with currency := some newCurrency }

/-- `addCurrencyToActor`: fails exactly when the actor cannot be updated. -/
def addCurrencyToActor (actor : ActorWithCurrency) (currency : String)
    (amount : ℚ) : Bool × ActorWithCurrency :=
  if !actor.hasUpdate then (false, actor)
  else
    let currentAmount := getActorCurrencyAmount actor currency
    let newAmount := currentAmount + amount
    (true, writeCurrency actor currency newAmount)

/-- `removeCurrencyFromActor`: fails when the actor cannot be updated or
holds less than `amount` of the denomination. -/
def removeCurrencyFromActor (actor : ActorWithCurrency) (currency : String)
    (amount : ℚ) : Bool × ActorWithCurrency :=
  if !actor.hasUpdate then (false, actor)
  else
    let currentAmount := getActorCurrencyAmount actor currency
    if currentAmount < amount then (false, actor)
    else (true, writeCurrency actor currency (currentAmount - amount))

/-- `transferCurrencyBetweenActors`: checks the sender's funds, debits the
sender, credits the recipient, and on a failed credit refunds the sender
before reporting failure.  Returns the outcome flag and both actors. -/
def transferCurrencyBetweenActors (fromActor toActor : ActorWithCurrency)
    (currency : String) (amount : ℚ) :
    Bool × ActorWithCurrency × ActorWithCurrency :=
  if ¬actorHasCurrency fromActor currency amount then
    (false, fromActor, toActor)
  else
    let (removed, fromActor1) := removeCurrencyFromActor fromActor currency amount
    if !removed then (false, fromActor1, toActor)
    else
      let (added, toActor1) := addCurrencyToActor toActor currency amount
      if !added then
        let (_, fromActor2) := addCurrencyToActor fromActor1 currency amount
        (false, fromActor2, toActor1)
      else
        (true, fromActor1, toActor1)

end SystemCurrency

/-! ## Record-map lemmas -/

theorem rget_append {α : Type} (m1 m2 : List (ID × α)) (k : ID) :
    rget (m1 ++ m2) k =
      match rget m1 k with
      | some v => some v
      | none => rget m2 k := by
  induction m1 with
  | nil => simp [rget]
  | cons p rest ih =>
    by_cases h : p.1 = k
    · simp [rget, h]
    · simp [rget, h, ih]

theorem rget_rdel_self {α : Type} (m : List (ID × α)) (k : ID) :
    rget (rdel m k) k = none := by
  induction m with
  | nil => simp [rget, rdel]
  | cons p rest ih =>
    by_cases h : p.1 = k
    · simp [rdel, h, ih]
    · simp [rdel, rget, h, ih]

theorem rget_rdel_ne {α : Type} (m : List (ID × α)) (k k' : ID) (h : k' ≠ k) :
    rget (rdel m k) k' = rget m k' := by
  have hk : ¬k = k' := fun he => h he.symm
  induction m with
  | nil => simp [rdel]
  | cons p rest ih =>
    by_cases hp : p.1 = k
    · simp [rdel, rget, hp, hk, ih]
    · by_cases hp' : p.1 = k'
      · simp [rdel, rget, hp, hp', h]
      · simp [rdel, rget, hp, hp', ih]

theorem rget_rset_self {α : Type} (m : List (ID × α)) (k : ID) (v : α) :
    rget (rset m k v) k = some v := by
  rw [rset, rget_append, rget_rdel_self]
  simp [rget]

theorem rget_rset_ne {α : Type} (m : List (ID × α)) (k k' : ID) (v : α)
    (h : k' ≠ k) : rget (rset m k v) k' = rget m k' := by
  rw [rset, rget_append, rget_rdel_ne m k k' h]
  have hk : ¬k = k' := fun he => h he.symm
  cases hm : rget m k' with
  | none => simp [rget, hk]
  | some w => simp

theorem mem_rdel {α : Type} {m : List (ID × α)} {k : ID} {p : ID × α}
    (h : p ∈ rdel m k) : p ∈ m := by
  induction m with
  | nil => simp [rdel] at h
  | cons q rest ih =>
    by_cases hq : q.1 = k
    · simp only [rdel, if_pos hq] at h
      exact List.mem_cons_of_mem q (ih h)
    · simp only [rdel, if_neg hq, List.mem_cons] at h
      rcases h with h | h
      · exact h ▸ List.mem_cons_self q rest
      · exact List.mem_cons_of_mem q (ih h)

theorem mem_rset {α : Type} {m : List (ID × α)} {k : ID} {v : α} {p : ID × α}
    (h : p ∈ rset m k v) : p ∈ m ∨ p = (k, v) := by
  rw [rset] at h
  rcases List.mem_append.mp h with h | h
  · exact Or.inl (mem_rdel h)
  · exact Or.inr (by simpa using h)

theorem rget_mem {α : Type} {m : List (ID × α)} {k : ID} {v : α}
    (h : rget m k = some v) : (k, v) ∈ m := by
  induction m with
  | nil => simp [rget] at h
  | cons p rest ih =>
    by_cases hp : p.1 = k
    · simp only [rget, if_pos hp, Option.some.injEq] at h
      exact List.mem_cons.mpr (Or.inl (by rw [← hp, ← h]))
    · simp only [rget, if_neg hp] at h
      exact List.mem_cons_of_mem p (ih h)

theorem forall_rset {α : Type} {P : α → Prop} {m : List (ID × α)} {k : ID}
    {v : α} (hm : ∀ p ∈ m, P p.2) (hv : P v) : ∀ p ∈ rset m k v, P p.2 :=
  fun p hp => (mem_rset hp).elim (hm p) fun he => by rw [he]; exact hv

theorem forall_rdel {α : Type} {P : α → Prop} {m : List (ID × α)} {k : ID}
    (hm : ∀ p ∈ m, P p.2) : ∀ p ∈ rdel m k, P p.2 :=
  fun p hp => hm p (mem_rdel hp)

/-! ## Invariant preservation (C1) -/

/-- Every rate `getExchangeRate` derives is nonnegative when all stored
`baseValue`s are positive and all stored overrides nonnegative. -/
theorem getExchangeRate_nonneg {s : BankDataStore}
    (h1 : CurrenciesPositive s) (h2 : RatesNonneg s) {a b : ID} {r : ℚ}
    (h : getExchangeRate s a b = some r) : 0 ≤ r := by
  unfold getExchangeRate at h
  cases ha : rget s.currencies a with
  | none =>
    rw [ha] at h
    exact absurd h (by simp)
  | some fromCur =>
    cases hb : rget s.currencies b with
    | none => rw [ha, hb] at h; exact absurd h (by simp)
    | some toCur =>
      rw [ha, hb] at h
      dsimp only at h
      by_cases hab : a = b
      · rw [if_pos hab] at h
        simp only [Option.some.injEq] at h
        rw [← h]; norm_num
      · rw [if_neg hab] at h
        cases hfind : s.exchangeRates.find? fun rr =>
            rr.fromCurrencyId == a && rr.toCurrencyId == b with
        | some customRate =>
          rw [hfind] at h
          simp only [Option.some.injEq] at h
          rw [← h]
          exact h2 customRate (List.mem_of_find?_eq_some hfind)
        | none =>
          rw [hfind] at h
          by_cases heco : fromCur.economyId = toCur.economyId
          · rw [if_pos heco] at h
            simp only [Option.some.injEq] at h
            rw [← h]
            have hf : 0 < fromCur.baseValue := h1 _ (rget_mem ha)
            have ht : 0 < toCur.baseValue := h1 _ (rget_mem hb)
            positivity
          · rw [if_neg heco] at h; exact absurd h (by simp)

theorem updateEconomy_fields (s : BankDataStore) (id : ID)
    (upd : Economy → Economy) :
    ((updateEconomy s id upd).2).currencies = s.currencies ∧
    ((updateEconomy s id upd).2).exchangeRates = s.exchangeRates ∧
    ((updateEconomy s id upd).2).accounts = s.accounts := by
  unfold updateEconomy
  cases rget s.economies id <;> simp

theorem createEconomy_inv {s : BankDataStore} (h : StoreInv s)
    (id : ID) (name description : String) (ir gr : ℚ) :
    StoreInv (createEconomy s id name description ir gr).2 := h

theorem deleteEconomy_inv {s : BankDataStore} (h : StoreInv s) (id : ID) :
    StoreInv (deleteEconomy s id).2 := by
  obtain ⟨h1, h2, h3⟩ := h
  unfold deleteEconomy
  by_cases hn : (rget s.economies id).isNone
  · rw [if_pos hn]; exact ⟨h1, h2, h3⟩
  · rw [if_neg hn]
    refine ⟨?_, h2, ?_⟩
    · intro p hp
      exact h1 p (List.mem_of_mem_filter hp)
    · intro p hp
      exact h3 p (List.mem_of_mem_filter hp)

theorem createCurrency_inv {s : BankDataStore} (h : StoreInv s)
    {id economyId : ID} {name abbreviation symbol : String} {baseValue : ℚ}
    {color : String} (hbv : 0 < baseValue) :
    StoreInv (createCurrency s id economyId name abbreviation symbol
      baseValue color).2 := by
  obtain ⟨h1, h2, h3⟩ := h
  unfold createCurrency
  by_cases hn : (rget s.economies economyId).isNone
  · rw [if_pos hn]; exact ⟨h1, h2, h3⟩
  · rw [if_neg hn]
    dsimp only
    by_cases hb1 : baseValue = 1
    · rw [if_pos hb1]
      refine ⟨fun p hp => ?_, fun r hr => ?_, fun p hp => ?_⟩
      · rw [(updateEconomy_fields _ _ _).1] at hp
        rcases mem_rset hp with hmem | he
        · exact h1 p hmem
        · rw [he]; exact hbv
      · rw [(updateEconomy_fields _ _ _).2.1] at hr
        exact h2 r hr
      · rw [(updateEconomy_fields _ _ _).2.2] at hp
        exact h3 p hp
    · rw [if_neg hb1]
      refine ⟨fun p hp => ?_, h2, h3⟩
      rcases mem_rset hp with hmem | he
      · exact h1 p hmem
      · rw [he]; exact hbv

theorem deleteCurrency_inv {s : BankDataStore} (h : StoreInv s) (id : ID) :
    StoreInv (deleteCurrency s id).2 := by
  obtain ⟨h1, h2, h3⟩ := h
  unfold deleteCurrency
  by_cases hn : (rget s.currencies id).isNone
  · rw [if_pos hn]; exact ⟨h1, h2, h3⟩
  · rw [if_neg hn]
    dsimp only
    split
    · exact ⟨h1, h2, h3⟩
    · exact ⟨fun p hp => h1 p (mem_rdel hp), h2, h3⟩

theorem setExchangeRate_inv {s : BankDataStore} (h : StoreInv s)
    {fromCurrencyId toCurrencyId : ID} {rate : ℚ} (hr : 0 ≤ rate) :
    StoreInv (setExchangeRate s fromCurrencyId toCurrencyId rate).2 := by
  obtain ⟨h1, h2, h3⟩ := h
  unfold setExchangeRate
  split
  · exact ⟨h1, h2, h3⟩
  · refine ⟨h1, fun r hrm => ?_, h3⟩
    rcases List.mem_append.mp hrm with hrm | hrm
    · exact h2 r (List.mem_of_mem_filter hrm)
    · rw [List.mem_singleton.mp hrm]
      exact hr

theorem createBank_inv {s : BankDataStore} (h : StoreInv s)
    (id economyId : ID) (name description : String) (ir : ℚ) (fees : Fees) :
    StoreInv (createBank s id economyId name description ir fees).2 := by
  unfold createBank
  split <;> exact h

theorem deleteBank_inv {s : BankDataStore} (h : StoreInv s) (id : ID) :
    StoreInv (deleteBank s id).2 := by
  unfold deleteBank
  split
  · exact h
  · split <;> exact h

theorem createAccount_inv {s : BankDataStore} (h : StoreInv s)
    (id bankId currencyId : ID) (ownerId ownerName name : String) :
    StoreInv (createAccount s id bankId currencyId ownerId ownerName name).2 := by
  obtain ⟨h1, h2, h3⟩ := h
  unfold createAccount
  cases rget s.banks bankId with
  | none => exact ⟨h1, h2, h3⟩
  | some bank =>
    cases getCurrency s currencyId with
    | none => exact ⟨h1, h2, h3⟩
    | some currency =>
      dsimp only
      by_cases hc : currency.economyId ≠ bank.economyId
      · rw [if_pos hc]; exact ⟨h1, h2, h3⟩
      · rw [if_neg hc]
        refine ⟨h1, h2, fun p hp => ?_⟩
        rcases mem_rset hp with hmem | he
        · exact h3 p hmem
        · rw [he]

theorem closeAccount_inv {s : BankDataStore} (h : StoreInv s) (id : ID) :
    StoreInv (closeAccount s id).2 := by
  obtain ⟨h1, h2, h3⟩ := h
  unfold closeAccount
  cases hacc : rget s.accounts id with
  | none => exact ⟨h1, h2, h3⟩
  | some account =>
    dsimp only
    by_cases hb : account.balance ≠ 0
    · rw [if_pos hb]; exact ⟨h1, h2, h3⟩
    · rw [if_neg hb]
      unfold updateAccount
      rw [hacc]
      refine ⟨h1, h2, fun p hp => ?_⟩
      rcases mem_rset hp with hmem | he
      · exact h3 p hmem
      · rw [he]
        show 0 ≤ account.balance
        exact h3 _ (rget_mem hacc)

theorem deposit_inv {s : BankDataStore} (h : StoreInv s)
    (txnId accountId : ID) (amount : ℚ) (description createdBy : String) :
    StoreInv (deposit s txnId accountId amount description createdBy).2 := by
  obtain ⟨h1, h2, h3⟩ := h
  unfold deposit
  by_cases hamt : amount ≤ 0
  · rw [if_pos hamt]; exact ⟨h1, h2, h3⟩
  · rw [if_neg hamt]
    cases hacc : rget s.accounts accountId with
    | none => exact ⟨h1, h2, h3⟩
    | some account =>
      dsimp only
      by_cases hact : (!account.isActive) = true
      · rw [if_pos hact]; exact ⟨h1, h2, h3⟩
      · rw [if_neg hact]
        unfold recordTransaction
        refine ⟨h1, h2, fun p hp => ?_⟩
        rcases mem_rset hp with hmem | he
        · exact h3 p hmem
        · rw [he]
          show 0 ≤ account.balance + amount
          have hb := h3 _ (rget_mem hacc)
          linarith [lt_of_not_le hamt]

theorem withdraw_inv {s : BankDataStore} (h : StoreInv s)
    (txnId accountId : ID) (amount : ℚ) (description createdBy : String) :
    StoreInv (withdraw s txnId accountId amount description createdBy).2 := by
  obtain ⟨h1, h2, h3⟩ := h
  unfold withdraw
  by_cases hamt : amount ≤ 0
  · rw [if_pos hamt]; exact ⟨h1, h2, h3⟩
  · rw [if_neg hamt]
    cases hacc : rget s.accounts accountId with
    | none => exact ⟨h1, h2, h3⟩
    | some account =>
      dsimp only
      by_cases hact : (!account.isActive) = true
      · rw [if_pos hact]; exact ⟨h1, h2, h3⟩
      · rw [if_neg hact]
        by_cases hins : account.balance < amount
        · rw [if_pos hins]; exact ⟨h1, h2, h3⟩
        · rw [if_neg hins]
          unfold recordTransaction
          refine ⟨h1, h2, fun p hp => ?_⟩
          rcases mem_rset hp with hmem | he
          · exact h3 p hmem
          · rw [he]
            show 0 ≤ account.balance - amount
            linarith [le_of_not_lt hins]

theorem transfer_inv {s : BankDataStore} (h : StoreInv s)
    (fromTxnId toTxnId fromAccountId toAccountId : ID) (amount : ℚ)
    (description createdBy : String) :
    StoreInv (transfer s fromTxnId toTxnId fromAccountId toAccountId amount
      description createdBy).2 := by
  obtain ⟨h1, h2, h3⟩ := h
  unfold transfer transferCore
  by_cases hamt : amount ≤ 0
  · rw [if_pos hamt]; exact ⟨h1, h2, h3⟩
  · rw [if_neg hamt]
    cases hfrom : rget s.accounts fromAccountId with
    | none => exact ⟨h1, h2, h3⟩
    | some fromAccount =>
      cases hto : rget s.accounts toAccountId with
      | none => exact ⟨h1, h2, h3⟩
      | some toAccount =>
        dsimp only
        by_cases hact : (!fromAccount.isActive || !toAccount.isActive) = true
        · rw [if_pos hact]; exact ⟨h1, h2, h3⟩
        · rw [if_neg hact]
          by_cases hins : fromAccount.balance < amount
          · rw [if_pos hins]; exact ⟨h1, h2, h3⟩
          · rw [if_neg hins]
            cases hcase : (if fromAccount.currencyId ≠ toAccount.currencyId then
                (getExchangeRate s fromAccount.currencyId
                  toAccount.currencyId).map fun rate => amount * rate
              else some amount) with
            | none =>
              exact ⟨h1, h2, h3⟩
            | some transferAmount =>
              have hta : 0 ≤ transferAmount := by
                by_cases hcur : fromAccount.currencyId ≠ toAccount.currencyId
                · rw [if_pos hcur] at hcase
                  cases hrate : getExchangeRate s fromAccount.currencyId
                      toAccount.currencyId with
                  | none => rw [hrate] at hcase; simp at hcase
                  | some rate =>
                    rw [hrate] at hcase
                    simp only [Option.map_some', Option.some.injEq] at hcase
                    have hr := getExchangeRate_nonneg h1 h2 hrate
                    rw [← hcase]
                    have hpos : 0 < amount := lt_of_not_le hamt
                    positivity
                · rw [if_neg hcur] at hcase
                  simp only [Option.some.injEq] at hcase
                  rw [← hcase]
                  linarith [lt_of_not_le hamt]
              unfold recordTransaction
              refine ⟨h1, h2, fun p hp => ?_⟩
              rcases mem_rset hp with hp1 | he
              · rcases mem_rset hp1 with hmem | he
                · exact h3 p hmem
                · rw [he]
                  show 0 ≤ fromAccount.balance - amount
                  linarith [le_of_not_lt hins]
              · rw [he]
                show 0 ≤ toAccount.balance + transferAmount
                have htb := h3 _ (rget_mem hto)
                linarith

/-- One engine operation with validated arguments preserves the combined
invariant. -/
theorem applyOp_inv {s : BankDataStore} {op : Op} (h : StoreInv s)
    (hop : GoodOp op) : StoreInv (applyOp s op) := by
  cases op with
  | createEconomy id name description ir gr =>
    exact createEconomy_inv h id name description ir gr
  | deleteEconomy id => exact deleteEconomy_inv h id
  | createCurrency id economyId name abbreviation symbol baseValue color =>
    exact createCurrency_inv h hop
  | deleteCurrency id => exact deleteCurrency_inv h id
  | setExchangeRate fromId toId rate => exact setExchangeRate_inv h hop
  | createBank id economyId name description ir fees =>
    exact createBank_inv h id economyId name description ir fees
  | deleteBank id => exact deleteBank_inv h id
  | createAccount id bankId currencyId ownerId ownerName name =>
    exact createAccount_inv h id bankId currencyId ownerId ownerName name
  | closeAccount id => exact closeAccount_inv h id
  | deposit txnId accountId amount description createdBy =>
    exact deposit_inv h txnId accountId amount description createdBy
  | withdraw txnId accountId amount description createdBy =>
    exact withdraw_inv h txnId accountId amount description createdBy
  | transfer fromTxnId toTxnId fromAccountId toAccountId amount description createdBy =>
    exact transfer_inv h fromTxnId toTxnId fromAccountId toAccountId amount
      description createdBy

theorem foldl_inv {s : BankDataStore} {ops : List Op} (h : StoreInv s)
    (hops : ∀ op ∈ ops, GoodOp op) : StoreInv (ops.foldl applyOp s) := by
  induction ops generalizing s with
  | nil => exact h
  | cons op rest ih =>
    exact ih (applyOp_inv h (hops op (List.mem_cons_self op rest)))
      fun o ho => hops o (List.mem_cons_of_mem op ho)

theorem storeInv_default : StoreInv getDefaultStore := by
  refine ⟨?_, ?_, ?_⟩ <;> intro p hp <;> simp [getDefaultStore] at hp

end FaxBank

namespace FaxBank

/-! ## C3 — `createEconomy` and the base currency -/

/-- C3 (counterexample): the DataStore-variant `createEconomy` does not
create a first currency and returns the economy with `baseCurrencyId` set
to `null`: from the empty store it yields an economy whose `baseCurrencyId`
refers to no currency, and the store still holds no currency at all. -/
theorem faxbank_C3_counterexample :
    (createEconomy getDefaultStore "e" "Kingdom" "" 0 0).1 =
      .ok ⟨"e", "Kingdom", "", none, 0, 0, now, now⟩ ∧
    ((createEconomy getDefaultStore "e" "Kingdom" "" 0 0).2).currencies = [] := by
  constructor <;> rfl

/-- C3 (amended): the array-variant `createEconomy` creates the economy
together with its base currency in one update: the returned economy's
`baseCurrencyId` is the id of the single currency of its `currencies` list,
that currency is marked base with `baseValue` 1, and the economy is
appended to the stored list.  The DataStore-variant `createEconomy`, by
contrast, creates the economy alone: its `baseCurrencyId` is `null` and the
stored currencies are untouched. -/
theorem faxbank_C3_createEconomy (economies : List ArrayEM.Economy)
    (economyId currencyId name description : String)
    (bc : String × String × String) (s : BankDataStore) (id : ID)
    (name' description' : String) (ir gr : ℚ) :
    (ArrayEM.createEconomy economies economyId currencyId name description
        bc).1.baseCurrencyId = currencyId ∧
    (ArrayEM.createEconomy economies economyId currencyId name description
        bc).1.currencies =
      [{ id := currencyId, name := bc.1, abbrev' := bc.2.1, symbol := bc.2.2
         baseValue := 1, isBase := true }] ∧
    (ArrayEM.createEconomy economies economyId currencyId name description
        bc).2 =
      economies ++ [(ArrayEM.createEconomy economies economyId currencyId
        name description bc).1] ∧
    (createEconomy s id name' description' ir gr).1 =
      .ok ⟨id, name', description', none, ir, gr, now, now⟩ ∧
    ((createEconomy s id name' description' ir gr).2).currencies =
      s.currencies := by
  refine ⟨rfl, rfl, rfl, rfl, rfl⟩

/-! ## C4 — `createCurrency` accepts nonpositive `baseValue` -/

/-- The one-economy store used for the C4 counterexample. -/
def c4Store : BankDataStore :=
  (createEconomy getDefaultStore "e" "Kingdom" "" 0 0).2

/-- C4 (counterexample): `createCurrency` with `baseValue = -1` does not
fail: it succeeds and stores the currency. -/
theorem faxbank_C4_counterexample :
    (createCurrency c4Store "c" "e" "Bad" "bd" "B" (-1) "#000000").1 =
      .ok ⟨"c", "e", "Bad", "bd", "B", -1, "#000000", now⟩ ∧
    rget ((createCurrency c4Store "c" "e" "Bad" "bd" "B" (-1) "#000000").2).currencies
        "c" =
      some ⟨"c", "e", "Bad", "bd", "B", -1, "#000000", now⟩ := by
  constructor
  · norm_num [c4Store, createEconomy, createCurrency, getDefaultStore, rget,
      rset, rdel]
  · norm_num [c4Store, createEconomy, createCurrency, getDefaultStore, rget,
      rset, rdel]

/-- C4 (amended): `createCurrency` performs no `baseValue` validation: for
any `baseValue ≤ 0` it succeeds whenever the economy exists, stores the
currency unchanged, and (the `baseValue == 1` promotion not applying)
leaves every other part of the store untouched.  The `baseValue > 0` check
exists only in the admin-UI layer, not in the engine. -/
theorem faxbank_C4_no_validation (s : BankDataStore) (id economyId : ID)
    (name abbreviation symbol : String) (baseValue : ℚ) (color : String)
    (hbv : baseValue ≤ 0) (heco : (rget s.economies economyId).isSome) :
    createCurrency s id economyId name abbreviation symbol baseValue color =
      (.ok ⟨id, economyId, name, abbreviation, symbol, baseValue, color, now⟩,
        { s with currencies := (rset s.currencies id
            ⟨id, economyId, name, abbreviation, symbol, baseValue, color, now⟩) }) := by
  have hn : ¬(rget s.economies economyId).isNone = true := by
    rw [Option.isNone_iff_eq_none]
    intro hcon
    rw [hcon] at heco
    simp at heco
  have hb1 : ¬baseValue = 1 := by intro hcon; rw [hcon] at hbv; norm_num at hbv
  unfold createCurrency
  rw [if_neg hn]
  dsimp only
  rw [if_neg hb1]

/-- C4 (witness). -/
theorem faxbank_C4_witness :
    createCurrency c4Store "c" "e" "Bad" "bd" "B" (-1) "#000000" =
      (.ok ⟨"c", "e", "Bad", "bd", "B", -1, "#000000", now⟩,
        { c4Store with currencies := (rset c4Store.currencies "c"
            ⟨"c", "e", "Bad", "bd", "B", -1, "#000000", now⟩) }) := by
  apply faxbank_C4_no_validation
  · norm_num
  · norm_num [c4Store, createEconomy, getDefaultStore, rget, rset, rdel]

end FaxBank

namespace FaxBank

/-! ## C5 — `deleteCurrency` -/

/-- Store for the C5 counterexample: one economy whose single currency is
its base currency, and no accounts. -/
def c5Store : BankDataStore :=
  (createCurrency (createEconomy getDefaultStore "e" "Kingdom" "" 0 0).2
    "c" "e" "Gold" "gp" "G" 1 "#FFD700").2

/-- `c5Store` extended with a bank and an account that uses currency
`"c"`. -/
def c5AcctStore : BankDataStore :=
  (createAccount (createBank c5Store "b" "e" "Bank" "" 0 ⟨0, 0, 0⟩).2
    "a" "b" "c" "o" "Owner" "Main").2

/-- C5 (counterexample): `deleteCurrency` has no base-currency guard.  In
`c5Store` the currency `"c"` is the base currency of economy `"e"` and its
only currency, yet `deleteCurrency` succeeds and removes it. -/
theorem faxbank_C5_counterexample :
    (rget c5Store.economies "e").map Economy.baseCurrencyId = some (some "c") ∧
    (c5Store.currencies.map Prod.fst = ["c"]) ∧
    (deleteCurrency c5Store "c").1 = .ok () ∧
    rget ((deleteCurrency c5Store "c").2).currencies "c" = none := by
  refine ⟨?_, ?_, ?_, ?_⟩ <;>
    norm_num +decide [c5Store, createEconomy, createCurrency, updateEconomy,
      deleteCurrency, getDefaultStore, rget, rset, rdel, rvals]

/-- C5 (amended): `deleteCurrency` fails with the Conflict error while any
account uses the currency, and succeeds once no referencing account
remains, removing the currency — regardless of whether the currency is the
economy's base currency or its last remaining currency (the source has no
such guard). -/
theorem faxbank_C5_deleteCurrency (s : BankDataStore) (id : ID)
    (hc : (rget s.currencies id).isSome) :
    (0 < ((rvals s.accounts).filter fun a => a.currencyId == id).length →
      deleteCurrency s id =
        (.error "Cannot delete currency: accounts exist using this currency", s)) ∧
    (((rvals s.accounts).filter fun a => a.currencyId == id).length = 0 →
      deleteCurrency s id =
        (.ok (), { s with currencies := rdel s.currencies id })) := by
  have hn : ¬(rget s.currencies id).isNone = true := by
    rw [Option.isNone_iff_eq_none]
    intro hcon
    rw [hcon] at hc
    simp at hc
  constructor
  · intro hused
    unfold deleteCurrency
    rw [if_neg hn]
    dsimp only
    rw [if_pos hused]
  · intro hfree
    unfold deleteCurrency
    rw [if_neg hn]
    dsimp only
    rw [if_neg (by rw [hfree]; norm_num)]

/-- C5 (witness): with an account using currency `"c"`, `deleteCurrency`
returns the Conflict error and changes nothing; in `c5Store` (no accounts)
it succeeds and removes the currency. -/
theorem faxbank_C5_witness :
    (deleteCurrency c5AcctStore "c" =
      (.error "Cannot delete currency: accounts exist using this currency",
        c5AcctStore)) ∧
    (deleteCurrency c5Store "c" =
      (.ok (), { c5Store with currencies := rdel c5Store.currencies "c" })) := by
  constructor
  · exact (faxbank_C5_deleteCurrency c5AcctStore "c"
      (by norm_num +decide [c5AcctStore, c5Store, createEconomy, createCurrency,
        updateEconomy, createBank, createAccount, getCurrency, getDefaultStore,
        rget, rset, rdel])).1
      (by norm_num +decide [c5AcctStore, c5Store, createEconomy, createCurrency,
        updateEconomy, createBank, createAccount, getCurrency, getDefaultStore,
        rget, rset, rdel, rvals])
  · exact (faxbank_C5_deleteCurrency c5Store "c"
      (by norm_num +decide [c5Store, createEconomy, createCurrency,
        updateEconomy, getDefaultStore, rget, rset, rdel])).2
      (by norm_num +decide [c5Store, createEconomy, createCurrency,
        updateEconomy, getDefaultStore, rget, rset, rdel, rvals])

end FaxBank

namespace FaxBank

/-! ## C6 — failed transfers mutate nothing -/

/-- C6: a `transfer` whose source balance is below `amount` fails with the
insufficient-funds error, and a `transfer` between accounts whose
currencies admit no exchange rate fails with the not-convertible error; in
both cases the returned store is exactly the input store — no balance and
no transaction changes. -/
theorem faxbank_C6_failure_no_mutation (s : BankDataStore)
    (fromTxnId toTxnId fromAccountId toAccountId : ID) (amount : ℚ)
    (description createdBy : String) (fromAccount toAccount : Account)
    (hfrom : rget s.accounts fromAccountId = some fromAccount)
    (hto : rget s.accounts toAccountId = some toAccount)
    (hamt : 0 < amount)
    (hfact : fromAccount.isActive = true)
    (htact : toAccount.isActive = true) :
    (fromAccount.balance < amount →
      transfer s fromTxnId toTxnId fromAccountId toAccountId amount
          description createdBy =
        (.error "Insufficient funds", s)) ∧
    (amount ≤ fromAccount.balance →
      fromAccount.currencyId ≠ toAccount.currencyId →
      getExchangeRate s fromAccount.currencyId toAccount.currencyId = none →
      transfer s fromTxnId toTxnId fromAccountId toAccountId amount
          description createdBy =
        (.error "Cannot convert between these currencies", s)) := by
  have hne : ¬amount ≤ 0 := not_le.mpr hamt
  have hcond : ¬(!fromAccount.isActive || !toAccount.isActive) = true := by
    simp [hfact, htact]
  constructor
  · intro hins
    unfold transfer transferCore
    rw [if_neg hne, hfrom, hto]
    dsimp only
    rw [if_neg hcond, if_pos hins]
  · intro hbal hcur hrate
    unfold transfer transferCore
    rw [if_neg hne, hfrom, hto]
    dsimp only
    rw [if_neg hcond, if_neg (not_lt.mpr hbal)]
    rw [if_pos hcur, hrate]
    rfl

/-- Store for the C6 witness: two active accounts, `"a1"` holding 100 of
the base currency. -/
def c6Store : BankDataStore :=
  runOps
    [ .createEconomy "e" "Kingdom" "" 0 0,
      .createCurrency "g" "e" "Gold" "gp" "G" 1 "#FFD700",
      .createCurrency "p" "e" "Plat" "pp" "P" 10 "#E5E4E2",
      .createBank "b" "e" "Bank" "" 0 ⟨0, 0, 0⟩,
      .createAccount "a1" "b" "g" "o1" "Alice" "Main",
      .createAccount "a2" "b" "p" "o2" "Bob" "Main",
      .deposit "t0" "a1" 100 "Deposit" "system" ]

/-- C6 (witness). -/
theorem faxbank_C6_witness :
    transfer c6Store "t1" "t2" "a1" "a2" 500 "Transfer" "system" =
      (.error "Insufficient funds", c6Store) := by
  exact (faxbank_C6_failure_no_mutation c6Store "t1" "t2" "a1" "a2" 500
    "Transfer" "system"
    ⟨"a1", "b", "g", "o1", "Alice", "Main", 100, true, now, now⟩
    ⟨"a2", "b", "p", "o2", "Bob", "Main", 0, true, now, now⟩
    (by norm_num +decide [c6Store, runOps, applyOp, createEconomy,
      createCurrency, updateEconomy, createBank, createAccount, getCurrency,
      deposit, recordTransaction, getDefaultStore, rget, rset, rdel])
    (by norm_num +decide [c6Store, runOps, applyOp, createEconomy,
      createCurrency, updateEconomy, createBank, createAccount, getCurrency,
      deposit, recordTransaction, getDefaultStore, rget, rset, rdel])
    (by norm_num) rfl rfl).1 (by norm_num)

end FaxBank

namespace FaxBank

/-! ## C7 — cross-currency transfer conversion -/

/-- C7: a successful transfer between active accounts of different
currencies in the same economy with no stored override debits `amount`
from the source and credits `amount * (fromCur.baseValue / toCur.baseValue)`
to the destination. -/
theorem faxbank_C7_cross_currency (s : BankDataStore)
    (fromTxnId toTxnId fromAccountId toAccountId : ID) (amount : ℚ)
    (description createdBy : String) (fromAccount toAccount : Account)
    (fromCur toCur : Currency)
    (hfrom : rget s.accounts fromAccountId = some fromAccount)
    (hto : rget s.accounts toAccountId = some toAccount)
    (hamt : 0 < amount)
    (hfact : fromAccount.isActive = true)
    (htact : toAccount.isActive = true)
    (hbal : amount ≤ fromAccount.balance)
    (hcur : fromAccount.currencyId ≠ toAccount.currencyId)
    (hfc : rget s.currencies fromAccount.currencyId = some fromCur)
    (htc : rget s.currencies toAccount.currencyId = some toCur)
    (heco : fromCur.economyId = toCur.economyId)
    (hnoov : s.exchangeRates.find? (fun r =>
        r.fromCurrencyId == fromAccount.currencyId &&
        r.toCurrencyId == toAccount.currencyId) = none) :
    ((transfer s fromTxnId toTxnId fromAccountId toAccountId amount
        description createdBy).1).isOk = true ∧
    (rget ((transfer s fromTxnId toTxnId fromAccountId toAccountId amount
        description createdBy).2).accounts fromAccountId).map Account.balance =
      some (fromAccount.balance - amount) ∧
    (rget ((transfer s fromTxnId toTxnId fromAccountId toAccountId amount
        description createdBy).2).accounts toAccountId).map Account.balance =
      some (toAccount.balance + amount * (fromCur.baseValue / toCur.baseValue)) := by
  have hne : ¬amount ≤ 0 := not_le.mpr hamt
  have hcond : ¬(!fromAccount.isActive || !toAccount.isActive) = true := by
    simp [hfact, htact]
  have hneacc : fromAccountId ≠ toAccountId := by
    intro he
    rw [he, hto] at hfrom
    apply hcur
    rw [Option.some.injEq] at hfrom
    rw [← hfrom]
  have hrate : getExchangeRate s fromAccount.currencyId toAccount.currencyId =
      some (fromCur.baseValue / toCur.baseValue) := by
    unfold getExchangeRate
    rw [hfc, htc]
    dsimp only
    rw [if_neg hcur, hnoov]
    dsimp only
    rw [if_pos heco]
  unfold transfer transferCore
  rw [if_neg hne, hfrom, hto]
  dsimp only
  rw [if_neg hcond, if_neg (not_lt.mpr hbal)]
  rw [if_pos hcur, hrate]
  dsimp only [Option.map_some']
  unfold recordTransaction
  dsimp only
  refine ⟨rfl, ?_, ?_⟩
  · rw [rget_rset_ne _ _ _ _ hneacc, rget_rset_self]
    rfl
  · rw [rget_rset_self]
    rfl

/-- Store for the C7 witness: a gold account (`baseValue` 1) holding 100
and a platinum account (`baseValue` 10) holding 0, same economy, no
override. -/
def c7Store : BankDataStore :=
  runOps
    [ .createEconomy "e" "Kingdom" "" 0 0,
      .createCurrency "g" "e" "Gold" "gp" "G" 1 "#FFD700",
      .createCurrency "p" "e" "Plat" "pp" "P" 10 "#E5E4E2",
      .createBank "b" "e" "Bank" "" 0 ⟨0, 0, 0⟩,
      .createAccount "a1" "b" "g" "o1" "Alice" "Main",
      .createAccount "a2" "b" "p" "o2" "Bob" "Main",
      .deposit "t0" "a1" 100 "Deposit" "system" ]

/-- C7 (witness): transferring 100 gold to the platinum account credits
exactly 10 platinum (100 * (1/10)). -/
theorem faxbank_C7_witness :
    ((transfer c7Store "t1" "t2" "a1" "a2" 100 "Transfer" "system").1).isOk = true ∧
    (rget ((transfer c7Store "t1" "t2" "a1" "a2" 100 "Transfer"
        "system").2).accounts "a1").map Account.balance = some 0 ∧
    (rget ((transfer c7Store "t1" "t2" "a1" "a2" 100 "Transfer"
        "system").2).accounts "a2").map Account.balance = some 10 := by
  obtain ⟨h1, h2, h3⟩ := faxbank_C7_cross_currency c7Store "t1" "t2" "a1" "a2"
    100 "Transfer" "system"
    ⟨"a1", "b", "g", "o1", "Alice", "Main", 100, true, now, now⟩
    ⟨"a2", "b", "p", "o2", "Bob", "Main", 0, true, now, now⟩
    ⟨"g", "e", "Gold", "gp", "G", 1, "#FFD700", now⟩
    ⟨"p", "e", "Plat", "pp", "P", 10, "#E5E4E2", now⟩
    (by norm_num +decide [c7Store, runOps, applyOp, createEconomy,
      createCurrency, updateEconomy, createBank, createAccount, getCurrency,
      deposit, recordTransaction, getDefaultStore, rget, rset, rdel])
    (by norm_num +decide [c7Store, runOps, applyOp, createEconomy,
      createCurrency, updateEconomy, createBank, createAccount, getCurrency,
      deposit, recordTransaction, getDefaultStore, rget, rset, rdel])
    (by norm_num) rfl rfl (by norm_num) (by decide)
    (by norm_num +decide [c7Store, runOps, applyOp, createEconomy,
      createCurrency, updateEconomy, createBank, createAccount, getCurrency,
      deposit, recordTransaction, getDefaultStore, rget, rset, rdel])
    (by norm_num +decide [c7Store, runOps, applyOp, createEconomy,
      createCurrency, updateEconomy, createBank, createAccount, getCurrency,
      deposit, recordTransaction, getDefaultStore, rget, rset, rdel])
    rfl
    (by norm_num +decide [c7Store, runOps, applyOp, createEconomy,
      createCurrency, updateEconomy, createBank, createAccount, getCurrency,
      deposit, recordTransaction, getDefaultStore, rget, rset, rdel,
      List.find?])
  refine ⟨h1, ?_, ?_⟩
  · rw [h2]; norm_num
  · rw [h3]; norm_num

end FaxBank

namespace FaxBank

/-! ## C8 — deposit/withdraw round trip -/

/-- C8: for an active account with nonnegative balance `B` and `amount > 0`,
`deposit` then `withdraw` of the same amount both succeed, return the
balance to `B`, and append exactly two transactions whose `balanceAfter`
fields are `B + amount` and `B`. -/
theorem faxbank_C8_round_trip (s : BankDataStore) (tid1 tid2 accountId : ID)
    (amount : ℚ) (d1 c1 d2 c2 : String) (account : Account)
    (hacc : rget s.accounts accountId = some account)
    (hact : account.isActive = true)
    (hbal : 0 ≤ account.balance)
    (hamt : 0 < amount) :
    ((deposit s tid1 accountId amount d1 c1).1).isOk = true ∧
    ((withdraw (deposit s tid1 accountId amount d1 c1).2 tid2 accountId
        amount d2 c2).1).isOk = true ∧
    (rget ((withdraw (deposit s tid1 accountId amount d1 c1).2 tid2 accountId
        amount d2 c2).2).accounts accountId).map Account.balance =
      some account.balance ∧
    ((withdraw (deposit s tid1 accountId amount d1 c1).2 tid2 accountId
        amount d2 c2).2).transactions =
      s.transactions ++
        [⟨tid1, accountId, .deposit, amount, account.currencyId,
          account.balance + amount, d1, none, none, c1, now⟩,
         ⟨tid2, accountId, .withdrawal, -amount, account.currencyId,
          account.balance, d2, none, none, c2, now⟩] := by
  have hne : ¬amount ≤ 0 := not_le.mpr hamt
  have hact' : ¬(!account.isActive) = true := by simp [hact]
  have hdep : deposit s tid1 accountId amount d1 c1 =
      (.ok ⟨tid1, accountId, .deposit, amount, account.currencyId,
          account.balance + amount, d1, none, none, c1, now⟩,
        { s with
          accounts := (rset s.accounts accountId
            { account with balance := account.balance + amount, updatedAt := now })
          transactions := s.transactions ++
            [⟨tid1, accountId, .deposit, amount, account.currencyId,
              account.balance + amount, d1, none, none, c1, now⟩] }) := by
    unfold deposit recordTransaction
    rw [if_neg hne, hacc]
    dsimp only
    rw [if_neg hact']
  rw [hdep]
  have hins : ¬account.balance + amount < amount := by linarith
  unfold withdraw recordTransaction
  rw [if_neg hne]
  dsimp only
  rw [rget_rset_self]
  dsimp only
  rw [if_neg hact', if_neg hins]
  refine ⟨rfl, rfl, ?_, ?_⟩
  · rw [rget_rset_self]
    simp [add_sub_cancel_right]
  · dsimp only
    simp [List.append_assoc, add_sub_cancel_right]

/-- Store for the C8 witness. -/
def c8Store : BankDataStore :=
  runOps
    [ .createEconomy "e" "Kingdom" "" 0 0,
      .createCurrency "g" "e" "Gold" "gp" "G" 1 "#FFD700",
      .createBank "b" "e" "Bank" "" 0 ⟨0, 0, 0⟩,
      .createAccount "a1" "b" "g" "o1" "Alice" "Main",
      .deposit "t0" "a1" 40 "Deposit" "system" ]

/-- C8 (witness): depositing then withdrawing 7 on an account holding 40
returns the balance to 40 and appends two transactions with `balanceAfter`
47 and 40. -/
theorem faxbank_C8_witness :
    ((deposit c8Store "t1" "a1" 7 "D" "u").1).isOk = true ∧
    ((withdraw (deposit c8Store "t1" "a1" 7 "D" "u").2 "t2" "a1" 7 "W"
        "u").1).isOk = true ∧
    (rget ((withdraw (deposit c8Store "t1" "a1" 7 "D" "u").2 "t2" "a1" 7 "W"
        "u").2).accounts "a1").map Account.balance = some 40 ∧
    ((withdraw (deposit c8Store "t1" "a1" 7 "D" "u").2 "t2" "a1" 7 "W"
        "u").2).transactions =
      c8Store.transactions ++
        [⟨"t1", "a1", .deposit, 7, "g", 40 + 7, "D", none, none, "u", now⟩,
         ⟨"t2", "a1", .withdrawal, -7, "g", 40, "W", none, none, "u", now⟩] := by
  exact faxbank_C8_round_trip c8Store "t1" "t2" "a1" 7 "D" "u" "W" "u"
    ⟨"a1", "b", "g", "o1", "Alice", "Main", 40, true, now, now⟩
    (by norm_num +decide [c8Store, runOps, applyOp, createEconomy,
      createCurrency, updateEconomy, createBank, createAccount, getCurrency,
      deposit, recordTransaction, getDefaultStore, rget, rset, rdel])
    rfl (by norm_num) (by norm_num)

end FaxBank

namespace FaxBank

/-! ## C1 — balance nonnegativity -/

/-- Operation sequence breaking balance nonnegativity: a negative exchange
rate set through `setExchangeRate` (never validated by the engine) makes a
successful `transfer` drive the destination balance to -500. -/
def c1CexOps : List Op :=
  [ .createEconomy "e" "Kingdom" "" 0 0,
    .createCurrency "g" "e" "Gold" "gp" "G" 1 "#FFD700",
    .createCurrency "p" "e" "Plat" "pp" "P" 10 "#E5E4E2",
    .createBank "b" "e" "Bank" "" 0 ⟨0, 0, 0⟩,
    .createAccount "a1" "b" "g" "o1" "Alice" "Main",
    .createAccount "a2" "b" "p" "o2" "Bob" "Main",
    .deposit "t0" "a1" 100 "Deposit" "system",
    .setExchangeRate "g" "p" (-5),
    .transfer "t1" "t2" "a1" "a2" 100 "Transfer" "system" ]

/-- C1 (counterexample): after the engine-accepted sequence `c1CexOps` from
the empty store — ending in `setExchangeRate "g" "p" (-5)` followed by an
accepted `transfer` of 100 — account `"a2"` holds balance -500, so the
claimed invariant fails. -/
theorem faxbank_C1_counterexample :
    (rget (runOps c1CexOps).accounts "a2").map Account.balance =
      some (-500) ∧
    ¬BalancesNonneg (runOps c1CexOps) := by
  have heval : (rget (runOps c1CexOps).accounts "a2").map Account.balance =
      some (-500) := by
    norm_num +decide [c1CexOps, runOps, applyOp, createEconomy,
      createCurrency, updateEconomy, createBank, createAccount, getCurrency,
      deposit, setExchangeRate, transfer, transferCore, getExchangeRate,
      recordTransaction, getDefaultStore, rget, rset, rdel, List.find?]
  refine ⟨heval, fun hB => ?_⟩
  cases hacc : rget (runOps c1CexOps).accounts "a2" with
  | none => rw [hacc] at heval; simp at heval
  | some a =>
    rw [hacc] at heval
    simp only [Option.map_some', Option.some.injEq] at heval
    have hnn := hB _ (rget_mem hacc)
    rw [heval] at hnn
    norm_num at hnn

/-- C1 (amended): balance nonnegativity does hold for every sequence of
engine operations from the empty store in which every `createCurrency`
uses a positive `baseValue` and every `setExchangeRate` a nonnegative rate
(the validated-input regime; the engine itself never checks either). -/
theorem faxbank_C1_balance_nonneg (ops : List Op)
    (hops : ∀ op ∈ ops, GoodOp op) : BalancesNonneg (runOps ops) :=
  (foldl_inv storeInv_default hops).2.2

/-- C1 (witness). -/
theorem faxbank_C1_witness :
    BalancesNonneg (runOps
      [ Op.createEconomy "e" "Kingdom" "" 0 0,
        Op.createCurrency "g" "e" "Gold" "gp" "G" 1 "#FFD700",
        Op.createBank "b" "e" "Bank" "" 0 ⟨0, 0, 0⟩,
        Op.createAccount "a1" "b" "g" "o1" "Alice" "Main",
        Op.deposit "t0" "a1" 100 "Deposit" "system",
        Op.withdraw "t1" "a1" 30 "Withdrawal" "system" ]) := by
  apply faxbank_C1_balance_nonneg
  intro op hop
  fin_cases hop <;> norm_num [GoodOp]

end FaxBank

namespace FaxBank

namespace SystemCurrency

/-- The five denomination keys a character sheet's currency block holds. -/
def ValidDenom (c : String) : Prop :=
  c = "pp" ∨ c = "gp" ∨ c = "ep" ∨ c = "sp" ∨ c = "cp"

instance (c : String) : Decidable (ValidDenom c) := by
  unfold ValidDenom; infer_instance

theorem getAmount_write_self (a : ActorWithCurrency) (c : String) (v : ℚ) :
    getActorCurrencyAmount (writeCurrency a c v) c =
      if ValidDenom c then v else 0 := by
  unfold getActorCurrencyAmount getActorCurrency writeCurrency ValidDenom
  dsimp only
  unfold CurrencyData.set CurrencyData.get
  by_cases h1 : c = "pp"
  · simp [h1]
  · by_cases h2 : c = "gp"
    · simp [h1, h2]
    · by_cases h3 : c = "ep"
      · simp [h1, h2, h3]
      · by_cases h4 : c = "sp"
        · simp [h1, h2, h3, h4]
        · by_cases h5 : c = "cp"
          · simp [h1, h2, h3, h4, h5]
          · simp [h1, h2, h3, h4, h5]

theorem hasUpdate_write (a : ActorWithCurrency) (c : String) (v : ℚ) :
    (writeCurrency a c v).hasUpdate = a.hasUpdate := rfl

theorem getAmount_invalid (a : ActorWithCurrency) (c : String)
    (h : ¬ValidDenom c) : getActorCurrencyAmount a c = 0 := by
  unfold ValidDenom at h
  push_neg at h
  obtain ⟨h1, h2, h3, h4, h5⟩ := h
  unfold getActorCurrencyAmount getActorCurrency CurrencyData.get
  cases a.currency <;> simp [h1, h2, h3, h4, h5]

/-- C9: `transferCurrencyBetweenActors` debits the sender only after its
funds are confirmed (an unfunded sender leaves both actors untouched);
whenever it reports failure the sender's wallet amount in that denomination
is unchanged or restored by the compensating credit; and a failed credit to
the recipient after a successful debit reports failure. -/
theorem faxbank_C9_wallet_transfer (fromActor toActor : ActorWithCurrency)
    (currency : String) (amount : ℚ) :
    (¬actorHasCurrency fromActor currency amount →
      transferCurrencyBetweenActors fromActor toActor currency amount =
        (false, fromActor, toActor)) ∧
    ((transferCurrencyBetweenActors fromActor toActor currency amount).1 =
        false →
      getActorCurrencyAmount
        (transferCurrencyBetweenActors fromActor toActor currency
          amount).2.1 currency =
        getActorCurrencyAmount fromActor currency) ∧
    (actorHasCurrency fromActor currency amount →
      fromActor.hasUpdate = true → toActor.hasUpdate = false →
      (transferCurrencyBetweenActors fromActor toActor currency amount).1 =
        false) := by
  by_cases hhas : actorHasCurrency fromActor currency amount
  · have hnlt : ¬getActorCurrencyAmount fromActor currency < amount :=
      not_lt.mpr hhas
    by_cases hfu : fromActor.hasUpdate
    · by_cases htu : toActor.hasUpdate
      · -- debit and credit both succeed
        have hres : transferCurrencyBetweenActors fromActor toActor currency
            amount =
            (true,
              writeCurrency fromActor currency
                (getActorCurrencyAmount fromActor currency - amount),
              writeCurrency toActor currency
                (getActorCurrencyAmount toActor currency + amount)) := by
          unfold transferCurrencyBetweenActors removeCurrencyFromActor
            addCurrencyToActor
          rw [if_neg (not_not_intro hhas)]
          simp only [hfu, htu, Bool.not_true, Bool.false_eq_true, if_false,
            if_neg hnlt]
        rw [hres]
        refine ⟨fun hcon => absurd hhas hcon, fun hcon => by simp at hcon,
          fun _ _ hcon => absurd (htu.symm.trans hcon) (by simp)⟩
      · -- debit succeeds, credit fails, compensating credit restores
        have htu' : toActor.hasUpdate = false := by
          cases h : toActor.hasUpdate
          · rfl
          · exact absurd h htu
        have hres : transferCurrencyBetweenActors fromActor toActor currency
            amount =
            (false,
              writeCurrency
                (writeCurrency fromActor currency
                  (getActorCurrencyAmount fromActor currency - amount))
                currency
                (getActorCurrencyAmount
                  (writeCurrency fromActor currency
                    (getActorCurrencyAmount fromActor currency - amount))
                  currency + amount),
              toActor) := by
          unfold transferCurrencyBetweenActors removeCurrencyFromActor
            addCurrencyToActor
          rw [if_neg (not_not_intro hhas)]
          simp only [hfu, htu', Bool.not_true, Bool.not_false,
            Bool.false_eq_true, if_false, if_true, if_neg hnlt,
            hasUpdate_write]
        rw [hres]
        refine ⟨fun hcon => absurd hhas hcon, fun _ => ?_, fun _ _ _ => rfl⟩
        simp only [getAmount_write_self]
        by_cases hv : ValidDenom currency
        · rw [if_pos hv, if_pos hv]
          ring
        · rw [if_neg hv, getAmount_invalid fromActor currency hv]
    · -- sender not updatable: debit fails, nothing changes
      have hfu' : fromActor.hasUpdate = false := by
        cases h : fromActor.hasUpdate
        · rfl
        · exact absurd h hfu
      have hres : transferCurrencyBetweenActors fromActor toActor currency
          amount = (false, fromActor, toActor) := by
        unfold transferCurrencyBetweenActors removeCurrencyFromActor
        rw [if_neg (not_not_intro hhas)]
        simp only [hfu', Bool.not_false, if_true]
      rw [hres]
      exact ⟨fun hcon => absurd hhas hcon, fun _ => rfl,
        fun _ hcon _ => absurd (hfu'.symm.trans hcon) (by simp)⟩
  · -- insufficient funds: pure rejection
    have hres : transferCurrencyBetweenActors fromActor toActor currency
        amount = (false, fromActor, toActor) := by
      unfold transferCurrencyBetweenActors
      rw [if_pos hhas]
    rw [hres]
    exact ⟨fun _ => rfl, fun _ => rfl, fun hcon _ _ => absurd hcon hhas⟩

/-- Sender actor for the C9 witness: 20 gp, updatable sheet. -/
def c9From : ActorWithCurrency :=
  { name := some "Alice"
    currency := some ⟨some 0, some 20, some 0, some 0, some 0⟩
    hasUpdate := true }

/-- Recipient actor for the C9 witness: its sheet cannot be updated, so
crediting it fails. -/
def c9To : ActorWithCurrency :=
  { name := some "Bob"
    currency := some ⟨some 0, some 3, some 0, some 0, some 0⟩
    hasUpdate := false }

/-- C9 (witness): moving 5 gp from `c9From` to the non-updatable `c9To`
reports failure and leaves the sender at 20 gp. -/
theorem faxbank_C9_witness :
    (transferCurrencyBetweenActors c9From c9To "gp" 5).1 = false ∧
    getActorCurrencyAmount
      (transferCurrencyBetweenActors c9From c9To "gp" 5).2.1 "gp" = 20 := by
  have hhas : actorHasCurrency c9From "gp" 5 := by
    norm_num +decide [actorHasCurrency, getActorCurrencyAmount,
      getActorCurrency, CurrencyData.get, c9From]
  have h3 := (faxbank_C9_wallet_transfer c9From c9To "gp" 5).2.2 hhas rfl rfl
  refine ⟨h3, ?_⟩
  have h2 := (faxbank_C9_wallet_transfer c9From c9To "gp" 5).2.1 h3
  rw [h2]
  norm_num +decide [getActorCurrencyAmount, getActorCurrency,
    CurrencyData.get, c9From]

end SystemCurrency

end FaxBank

namespace FaxBank

/-! ## C2 — what each `transfer` `updateDataStore` call persists -/

/-- C2 (amended): a successful `transfer` persists three successive stores:
the first carries both balance mutations in a single update but still the
caller's original transaction list; the second adds only the source-leg
record; the third adds the destination-leg record and is the final store
`transfer` returns.  Between the first and third persisted stores both
balances are mutated while one or both transfer records are absent. -/
theorem faxbank_C2_persisted_states (s : BankDataStore)
    (fromTxnId toTxnId fromAccountId toAccountId : ID) (amount : ℚ)
    (description createdBy : String) (fromAccount toAccount : Account)
    (transferAmount : ℚ)
    (hfrom : rget s.accounts fromAccountId = some fromAccount)
    (hto : rget s.accounts toAccountId = some toAccount)
    (hamt : 0 < amount)
    (hfact : fromAccount.isActive = true)
    (htact : toAccount.isActive = true)
    (hbal : amount ≤ fromAccount.balance)
    (hta : (if fromAccount.currencyId ≠ toAccount.currencyId then
        (getExchangeRate s fromAccount.currencyId toAccount.currencyId).map
          fun rate => amount * rate
      else some amount) = some transferAmount) :
    transferPersists s fromTxnId toTxnId fromAccountId toAccountId amount
        description createdBy =
      [ { s with accounts := (rset (rset s.accounts fromAccountId
            { fromAccount with balance := fromAccount.balance - amount, updatedAt := now })
            toAccountId
            { toAccount with balance := toAccount.balance + transferAmount, updatedAt := now }) },
        { s with
          accounts := (rset (rset s.accounts fromAccountId
            { fromAccount with balance := fromAccount.balance - amount, updatedAt := now })
            toAccountId
            { toAccount with balance := toAccount.balance + transferAmount, updatedAt := now })
          transactions := s.transactions ++
            [⟨fromTxnId, fromAccountId, .transfer, -amount,
              fromAccount.currencyId, fromAccount.balance - amount,
              description ++ " to " ++ toAccount.ownerName, some toAccountId,
              none, createdBy, now⟩] },
        { s with
          accounts := (rset (rset s.accounts fromAccountId
            { fromAccount with balance := fromAccount.balance - amount, updatedAt := now })
            toAccountId
            { toAccount with balance := toAccount.balance + transferAmount, updatedAt := now })
          transactions := s.transactions ++
            [⟨fromTxnId, fromAccountId, .transfer, -amount,
              fromAccount.currencyId, fromAccount.balance - amount,
              description ++ " to " ++ toAccount.ownerName, some toAccountId,
              none, createdBy, now⟩,
             ⟨toTxnId, toAccountId, .transfer, transferAmount,
              toAccount.currencyId, toAccount.balance + transferAmount,
              description ++ " from " ++ fromAccount.ownerName,
              some fromAccountId, some fromTxnId, createdBy, now⟩] } ] ∧
    (transfer s fromTxnId toTxnId fromAccountId toAccountId amount
        description createdBy).2 =
      { s with
        accounts := (rset (rset s.accounts fromAccountId
          { fromAccount with balance := fromAccount.balance - amount, updatedAt := now })
          toAccountId
          { toAccount with balance := toAccount.balance + transferAmount, updatedAt := now })
        transactions := s.transactions ++
          [⟨fromTxnId, fromAccountId, .transfer, -amount,
            fromAccount.currencyId, fromAccount.balance - amount,
            description ++ " to " ++ toAccount.ownerName, some toAccountId,
            none, createdBy, now⟩,
           ⟨toTxnId, toAccountId, .transfer, transferAmount,
            toAccount.currencyId, toAccount.balance + transferAmount,
            description ++ " from " ++ fromAccount.ownerName,
            some fromAccountId, some fromTxnId, createdBy, now⟩] } := by
  have hne : ¬amount ≤ 0 := not_le.mpr hamt
  have hcond : ¬(!fromAccount.isActive || !toAccount.isActive) = true := by
    simp [hfact, htact]
  unfold transferPersists transfer transferCore
  rw [if_neg hne, hfrom, hto]
  dsimp only
  rw [if_neg hcond, if_neg (not_lt.mpr hbal), hta]
  unfold recordTransaction
  dsimp only
  simp only [List.append_assoc, List.singleton_append]
  refine ⟨?_, ?_⟩ <;> first | rfl | trivial

/-- Store for the C2 witness and counterexample: two active accounts of the
same currency, `"a1"` holding 100 after one deposit; exactly one
transaction (the deposit) is stored. -/
def c2Store : BankDataStore :=
  runOps
    [ .createEconomy "e" "Kingdom" "" 0 0,
      .createCurrency "g" "e" "Gold" "gp" "G" 1 "#FFD700",
      .createBank "b" "e" "Bank" "" 0 ⟨0, 0, 0⟩,
      .createAccount "a1" "b" "g" "o1" "Alice" "Main",
      .createAccount "a2" "b" "g" "o2" "Bob" "Main",
      .deposit "t0" "a1" 100 "Deposit" "system" ]

/-- C2 (counterexample): for the successful transfer of 30 from `"a1"` to
`"a2"` on `c2Store`, the first persisted store already carries both balance
mutations (70 and 30) while holding only the single pre-existing
transaction — both transfer records are absent from a persisted state,
which the claim asserts never happens.  The transfer itself succeeds and
its final store holds all 3 records. -/
theorem faxbank_C2_counterexample :
    ((transferPersists c2Store "t1" "t2" "a1" "a2" 30 "Transfer"
        "system").head?).map
        (fun s' => ((rget s'.accounts "a1").map Account.balance,
          (rget s'.accounts "a2").map Account.balance,
          s'.transactions.length)) =
      some (some 70, some 30, 1) ∧
    ((transfer c2Store "t1" "t2" "a1" "a2" 30 "Transfer" "system").1).isOk =
      true ∧
    ((transfer c2Store "t1" "t2" "a1" "a2" 30 "Transfer"
        "system").2).transactions.length = 3 := by
  refine ⟨?_, ?_, ?_⟩ <;>
    norm_num +decide [c2Store, runOps, applyOp, createEconomy, createCurrency,
      updateEconomy, createBank, createAccount, getCurrency, deposit,
      recordTransaction, transfer, transferCore, transferPersists,
      getExchangeRate, getDefaultStore, rget, rset, rdel, List.find?]

/-- Account `"a1"` as stored in `c2Store`. -/
def a1Acct : Account :=
  ⟨"a1", "b", "g", "o1", "Alice", "Main", 100, true, now, now⟩

/-- Account `"a2"` as stored in `c2Store`. -/
def a2Acct : Account :=
  ⟨"a2", "b", "g", "o2", "Bob", "Main", 0, true, now, now⟩

/-- C2 (witness). -/
theorem faxbank_C2_witness :
    transferPersists c2Store "t1" "t2" "a1" "a2" 30 "Transfer" "system" =
      [ { c2Store with accounts := (rset (rset c2Store.accounts "a1"
            { a1Acct with balance := a1Acct.balance - 30, updatedAt := now })
            "a2" { a2Acct with balance := a2Acct.balance + 30, updatedAt := now }) },
        { c2Store with
          accounts := (rset (rset c2Store.accounts "a1"
            { a1Acct with balance := a1Acct.balance - 30, updatedAt := now })
            "a2" { a2Acct with balance := a2Acct.balance + 30, updatedAt := now })
          transactions := c2Store.transactions ++
            [⟨"t1", "a1", .transfer, -30, a1Acct.currencyId,
              a1Acct.balance - 30, "Transfer" ++ " to " ++ a2Acct.ownerName,
              some "a2", none, "system", now⟩] },
        { c2Store with
          accounts := (rset (rset c2Store.accounts "a1"
            { a1Acct with balance := a1Acct.balance - 30, updatedAt := now })
            "a2" { a2Acct with balance := a2Acct.balance + 30, updatedAt := now })
          transactions := c2Store.transactions ++
            [⟨"t1", "a1", .transfer, -30, a1Acct.currencyId,
              a1Acct.balance - 30, "Transfer" ++ " to " ++ a2Acct.ownerName,
              some "a2", none, "system", now⟩,
             ⟨"t2", "a2", .transfer, 30, a2Acct.currencyId,
              a2Acct.balance + 30, "Transfer" ++ " from " ++ a1Acct.ownerName,
              some "a1", some "t1", "system", now⟩] } ] := by
  exact (faxbank_C2_persisted_states c2Store "t1" "t2" "a1" "a2" 30
    "Transfer" "system" a1Acct a2Acct 30
    (by norm_num +decide [c2Store, runOps, applyOp, createEconomy,
      createCurrency, updateEconomy, createBank, createAccount, getCurrency,
      deposit, recordTransaction, getDefaultStore, rget, rset, rdel, a1Acct])
    (by norm_num +decide [c2Store, runOps, applyOp, createEconomy,
      createCurrency, updateEconomy, createBank, createAccount, getCurrency,
      deposit, recordTransaction, getDefaultStore, rget, rset, rdel, a2Acct])
    (by norm_num) rfl rfl (by norm_num [a1Acct])
    (by norm_num +decide [a1Acct, a2Acct])).1

end FaxBank

namespace FaxBank

/-! ## C10 — at most one override per ordered currency pair -/

theorem transferCore_ok_exchangeRates {s : BankDataStore}
    {fromTxnId toTxnId fromAccountId toAccountId : ID} {amount : ℚ}
    {description createdBy : String}
    {r : Transaction × Transaction × BankDataStore × BankDataStore × BankDataStore}
    (h : transferCore s fromTxnId toTxnId fromAccountId toAccountId amount
      description createdBy = .ok r) :
    r.2.2.2.2.exchangeRates = s.exchangeRates := by
  unfold transferCore at h
  dsimp only at h
  repeat' split at h
  all_goals try exact Except.noConfusion h
  all_goals
    simp only [Except.ok.injEq] at h
    subst h
    rfl

theorem applyOp_exchangeRates (s : BankDataStore) (op : Op)
    (h : op.isSetExchangeRate = false) :
    (applyOp s op).exchangeRates = s.exchangeRates := by
  cases op with
  | createEconomy id name description ir gr => rfl
  | deleteEconomy id =>
    simp only [applyOp]
    unfold deleteEconomy
    split <;> rfl
  | createCurrency id economyId name abbreviation symbol baseValue color =>
    simp only [applyOp]
    unfold createCurrency
    split
    · rfl
    · dsimp only
      split
      · unfold updateEconomy
        split <;> rfl
      · rfl
  | deleteCurrency id =>
    simp only [applyOp]
    unfold deleteCurrency
    split
    · rfl
    · dsimp only
      split <;> rfl
  | setExchangeRate a b rate => simp [Op.isSetExchangeRate] at h
  | createBank id economyId name description ir fees =>
    simp only [applyOp]
    unfold createBank
    split <;> rfl
  | deleteBank id =>
    simp only [applyOp]
    unfold deleteBank
    split
    · rfl
    · split <;> rfl
  | createAccount id bankId currencyId ownerId ownerName name =>
    simp only [applyOp]
    unfold createAccount
    split
    · rfl
    · split
      · rfl
      · split <;> rfl
  | closeAccount id =>
    simp only [applyOp]
    unfold closeAccount
    split
    · rfl
    · split
      · rfl
      · unfold updateAccount
        split <;> rfl
  | deposit txnId accountId amount description createdBy =>
    simp only [applyOp]
    unfold deposit recordTransaction
    split
    · rfl
    · split
      · rfl
      · split <;> rfl
  | withdraw txnId accountId amount description createdBy =>
    simp only [applyOp]
    unfold withdraw recordTransaction
    split
    · rfl
    · split
      · rfl
      · split
        · rfl
        · split <;> rfl
  | transfer fromTxnId toTxnId fromAccountId toAccountId amount description createdBy =>
    simp only [applyOp]
    unfold transfer
    cases htc : transferCore s fromTxnId toTxnId fromAccountId toAccountId
        amount description createdBy with
    | error e => rfl
    | ok r => exact transferCore_ok_exchangeRates htc

theorem setExchangeRate_unique {s : BankDataStore} (h : RatesKeyUnique s)
    (fromCurrencyId toCurrencyId : ID) (rate : ℚ) :
    RatesKeyUnique (setExchangeRate s fromCurrencyId toCurrencyId rate).2 := by
  unfold setExchangeRate
  split
  · exact h
  · unfold RatesKeyUnique
    dsimp only
    rw [List.pairwise_append]
    refine ⟨List.Pairwise.sublist (List.filter_sublist _) h, by simp, ?_⟩
    intro r1 hr1 r2 hr2
    rw [List.mem_singleton] at hr2
    rw [List.mem_filter] at hr1
    subst hr2
    intro hcon
    obtain ⟨hc1, hc2⟩ := hcon
    have hkeep := hr1.2
    rw [hc1, hc2] at hkeep
    simp at hkeep

theorem applyOp_unique {s : BankDataStore} {op : Op} (h : RatesKeyUnique s) :
    RatesKeyUnique (applyOp s op) := by
  cases hset : op.isSetExchangeRate with
  | false =>
    unfold RatesKeyUnique
    rw [applyOp_exchangeRates s op hset]
    exact h
  | true =>
    cases op with
    | setExchangeRate a b rate => exact setExchangeRate_unique h a b rate
    | _ => simp [Op.isSetExchangeRate] at hset

theorem foldl_unique {s : BankDataStore} {ops : List Op}
    (h : RatesKeyUnique s) : RatesKeyUnique (ops.foldl applyOp s) := by
  induction ops generalizing s with
  | nil => exact h
  | cons op rest ih => exact ih (applyOp_unique h)

/-- C10: from the empty store, every operation sequence leaves the
exchange-rate override list with at most one entry per ordered
`(fromCurrencyId, toCurrencyId)` pair — `setExchangeRate` replaces any
stored override for the pair instead of appending a duplicate — and no
operation other than `setExchangeRate` changes the override list at all. -/
theorem faxbank_C10_override_unique :
    (∀ ops : List Op, RatesKeyUnique (runOps ops)) ∧
    (∀ (s : BankDataStore) (op : Op), op.isSetExchangeRate = false →
      (applyOp s op).exchangeRates = s.exchangeRates) := by
  constructor
  · intro ops
    exact foldl_unique (by
      unfold RatesKeyUnique getDefaultStore
      exact List.Pairwise.nil)
  · exact applyOp_exchangeRates

/-- Operations for the C10 witness: two `setExchangeRate` calls on the
same ordered pair. -/
def c10Ops : List Op :=
  [ .createEconomy "e" "Kingdom" "" 0 0,
    .createCurrency "g" "e" "Gold" "gp" "G" 1 "#FFD700",
    .createCurrency "p" "e" "Plat" "pp" "P" 10 "#E5E4E2",
    .setExchangeRate "g" "p" 2,
    .setExchangeRate "g" "p" 3 ]

/-- C10 (witness): two `setExchangeRate` calls on the same ordered pair
leave a single override, carrying the second rate; a `deposit` leaves the
override list untouched. -/
theorem faxbank_C10_witness :
    RatesKeyUnique (runOps c10Ops) ∧
    (applyOp c2Store (.deposit "t9" "a1" 5 "D" "u")).exchangeRates =
      c2Store.exchangeRates := by
  exact ⟨faxbank_C10_override_unique.1 c10Ops,
    faxbank_C10_override_unique.2 c2Store (.deposit "t9" "a1" 5 "D" "u") rfl⟩

end FaxBank
